import Mathlib

/-!
Verification development for the BrewNix quality-gate pipeline
(`quality-gates/run_quality_gates.py`, `quality-gates/security/scan_security.py`,
`quality-gates/complexity/analyze_complexity.py`,
`quality-gates/review/automate_review.py`).

The Python sources are shallowly embedded: pure per-line / per-file analysis
logic is translated into executable Lean functions; data that the scripts
obtain from the outside world (file contents read from disk, `ast.parse`
results, `os.stat` metadata, subprocess outputs) is passed in explicitly as
input data.  File contents are carried as the list of lines produced by
Python's `content.split('\n')`; a read failure is an `Except.error` carrying
the exception message.  Regular-expression checks from the sources are
translated into executable matchers with `re.search` / `re.match`
existence-of-a-match semantics (the sources only test whether a match exists,
and extract `group(1)` in the two anchored function-definition regexes).
-/

/-! ## String and character utilities (Python `str` operations) -/

/-- Whitespace characters stripped by Python's `str.strip()` (ASCII range). -/
def isSpaceCh (c : Char) : Bool :=
  c == ' ' || c == '\t' || c == '\n' || c == '\r' || c == '\x0b' || c == '\x0c'

/-- Python `\w` character class: `[A-Za-z0-9_]`. -/
def isWordCh (c : Char) : Bool := c.isAlpha || c.isDigit || c == '_'

/-- A single or double quote, the class `["']` used by the security regexes. -/
def isQuoteCh (c : Char) : Bool := c == '"' || c == '\''

/-- Python `str.strip()` on a character list. -/
def pyStripList (s : List Char) : List Char :=
  ((s.dropWhile isSpaceCh).reverse.dropWhile isSpaceCh).reverse

/-- Python `str.strip()`. -/
def pyStrip (s : String) : String := String.mk (pyStripList s.data)

/-- Python `str.lower()` (ASCII). -/
def lowerStr (s : String) : String := String.mk (s.data.map Char.toLower)

/-- Python `str.upper()` (ASCII). -/
def upperStr (s : String) : String := String.mk (s.data.map Char.toUpper)

/-- `pat` is a prefix of `s`. -/
def listPref : List Char → List Char → Bool
  | [], _ => true
  | _ :: _, [] => false
  | c :: cs, d :: ds => c == d && listPref cs ds

/-- Python's `pat in s` substring test (for non-empty `pat`). -/
def containsSub (pat : List Char) : List Char → Bool
  | [] => listPref pat []
  | c :: rest => listPref pat (c :: rest) || containsSub pat rest

/-- Python's `pat in s` on strings. -/
def containsStr (pat s : String) : Bool := containsSub pat.data s.data

/-- Helper for `countSub`: the `Nat` argument is the number of characters of a
match that still have to be skipped so that counting is non-overlapping,
exactly like Python's `str.count` which resumes after the end of a match. -/
def countSubGo (pat : List Char) : List Char → Nat → Nat
  | [], _ => 0
  | _ :: rest, n + 1 => countSubGo pat rest n
  | c :: rest, 0 =>
      if listPref pat (c :: rest) then 1 + countSubGo pat rest (pat.length - 1)
      else countSubGo pat rest 0

/-- Python's `s.count(pat)` for a non-empty pattern (non-overlapping). -/
def countSub (pat s : List Char) : Nat := countSubGo pat s 0

/-- Python's `s.count(pat)` on strings. -/
def countStr (pat s : String) : Nat := countSub pat.data s.data

/-- Python's `s.startswith(pre)`. -/
def strStarts (pre s : String) : Bool := listPref pre.data s.data

/-- Python's `s.endswith(suf)`. -/
def strEnds (suf s : String) : Bool := listPref suf.data.reverse s.data.reverse

/-- Python's `enumerate(xs, n)`. -/
def enumerateFrom (n : Nat) : List α → List (Nat × α)
  | [] => []
  | x :: xs => (n, x) :: enumerateFrom (n + 1) xs

/-! ## Regular-expression matchers

The security/review regexes are fixed patterns; each is translated into an
executable matcher over `List Char` with backtracking, so that the Lean
function succeeds exactly when Python's `re.search` (resp. `re.match`) finds
a match. -/

/-- `re.search` driver: try the matcher at every start position. -/
def searchAt (m : List Char → Bool) : List Char → Bool
  | [] => m []
  | c :: rest => m (c :: rest) || searchAt m rest

/-- `C* k`: a (greedy, backtracking) character-class star followed by the
continuation `k`. -/
def starThen (p : Char → Bool) (k : List Char → Bool) : List Char → Bool
  | [] => k []
  | c :: rest => (p c && starThen p k rest) || k (c :: rest)

/-- A literal followed by the continuation `k`. -/
def litThen : List Char → (List Char → Bool) → List Char → Bool
  | [], k, s => k s
  | _ :: _, _, [] => false
  | c :: cs, k, d :: ds => (c == d) && litThen cs k ds

/-- A single given character followed by the continuation `k`. -/
def chThen (c : Char) (k : List Char → Bool) : List Char → Bool
  | [] => false
  | d :: ds => (d == c) && k ds

/-- The next character exists and is a quote (pattern tail `["']`). -/
def headQuote : List Char → Bool
  | [] => false
  | c :: _ => isQuoteCh c

/-- The `.` regex class inside a single line. -/
def anyCh (_ : Char) : Bool := true

/-- Python `s.dropwhile`-style helper: skip `\s*`. -/
def dropSpaces (s : List Char) : List Char := s.dropWhile isSpaceCh

/-! ## Gate status values (`run_quality_gates.py`) -/

/-- The status strings used by `QualityGateManager`. -/
inductive Status where
  | passed | warning | failed | unknown
  deriving DecidableEq, BEq, Fintype

/-- `QualityGateManager._calculate_overall_status` (run_quality_gates.py
lines 657-668) applied to the list of per-gate status values. -/
def calculate_overall_status (statuses : List Status) : Status :=
  if statuses.contains .failed then .failed
  else if statuses.contains .warning then .warning
  else if statuses.all (fun s => s == .passed) then .passed
  else .unknown

/-! ## SecurityScanner (`security/scan_security.py`) -/

deriving instance DecidableEq for Except

/-- A text file handed to a scanner: the path plus either the list of lines
of its content (`content.split('\n')`) or, when opening/reading raised, the
exception message. -/
structure TextFile where
  path : String
  data : Except String (List String)
  deriving DecidableEq

/-- One entry of the scanner's vulnerability dictionaries: severity, issue
text and recommendation keyed by a substring pattern. -/
structure VulnSig where
  pattern : String
  severity : String
  issue : String
  recommendation : String
  deriving DecidableEq

/-- A security finding, the dict appended by `scan_security.py` (the `code`
key is absent in the could-not-scan findings, hence the `Option`). -/
structure SecFinding where
  file : String
  line : Nat
  severity : String
  issue : String
  code : Option String
  recommendation : String
  deriving DecidableEq

/-- The `dangerous_functions` dict of `_check_python_vulnerability`, in
insertion order. -/
def python_dangerous_functions : List VulnSig :=
  [⟨"eval(", "critical", "Use of eval() function",
    "Avoid eval() - use ast.literal_eval() for safe evaluation"⟩,
   ⟨"exec(", "critical", "Use of exec() function",
    "Avoid exec() - find alternative implementation"⟩,
   ⟨"os.system(", "high", "Use of os.system()", "Use subprocess.run() instead"⟩,
   ⟨"subprocess.call(", "medium", "Use of subprocess.call()",
    "Use subprocess.run() for better security"⟩,
   ⟨"pickle.load(", "high", "Use of pickle.load()",
    "Avoid pickle for untrusted data - use json instead"⟩,
   ⟨"yaml.load(", "high", "Unsafe YAML loading", "Use yaml.safe_load() instead"⟩,
   ⟨"input(", "medium", "Use of input() in Python 2 style",
    "Use proper input validation"⟩]

/-- First block of `_check_python_vulnerability` (scan_security.py lines
117-136): the first dangerous-call pattern contained in the line wins. -/
def check_dangerous_functions (line : String) (lineNum : Nat) (filePath : String) :
    Option SecFinding :=
  (python_dangerous_functions.find? (fun v => containsStr v.pattern line)).map
    (fun v => ⟨filePath, lineNum, v.severity, v.issue, some line, v.recommendation⟩)

/-- Matcher for the regex tail `["'][^"']*["']`. -/
def matchQuoted : List Char → Bool
  | [] => false
  | c :: rest => isQuoteCh c && starThen (fun d => !isQuoteCh d) headQuote rest

/-- Matcher for the regex tail `\s*=\s*["'][^"']*["']`. -/
def matchEqQuoted : List Char → Bool :=
  starThen isSpaceCh (fun r =>
    match r with
    | '=' :: r2 => starThen isSpaceCh matchQuoted r2
    | _ => false)

/-- `re.search` of a keyword followed by the regex tail `\s*=\s*["'][^"']*["']`
with `re.IGNORECASE`, for a lowercase literal keyword `kw` (the
secret/password regexes of scan_security.py). -/
def secret_keyword_match (kw : String) (line : String) : Bool :=
  searchAt (litThen kw.data matchEqQuoted) (lowerStr line).data

/-- The keywords of the `secret_patterns` regex list (lines 139-144). -/
def python_secret_keywords : List String := ["password", "secret", "key", "token"]

/-- Second block of `_check_python_vulnerability` (lines 139-155): hardcoded
secrets. -/
def check_hardcoded_secret (line : String) (lineNum : Nat) (filePath : String) :
    Option SecFinding :=
  if python_secret_keywords.any (fun kw => secret_keyword_match kw line) then
    some ⟨filePath, lineNum, "high", "Potential hardcoded secret", some line,
      "Move secrets to environment variables or secure config files"⟩
  else none

/-- Matcher for `execute\s*\(\s*["'].*?%.*["']`. -/
def sql_pattern_one : List Char → Bool :=
  litThen "execute".data (starThen isSpaceCh (chThen '(' (starThen isSpaceCh (fun r =>
    match r with
    | q :: r2 => isQuoteCh q && starThen anyCh (chThen '%' (starThen anyCh headQuote)) r2
    | [] => false))))

/-- Matcher for `cursor\.execute\s*\(\s*f["']`. -/
def sql_pattern_two : List Char → Bool :=
  litThen "cursor.execute".data
    (starThen isSpaceCh (chThen '(' (starThen isSpaceCh (chThen 'f' headQuote))))

/-- Matcher for `["'].*?\s*\+.*?\s*["'].*?execute`. -/
def sql_pattern_three : List Char → Bool := fun s =>
  match s with
  | q :: r =>
      isQuoteCh q && starThen anyCh (starThen isSpaceCh (chThen '+'
        (starThen anyCh (starThen isSpaceCh (fun r2 =>
          match r2 with
          | q2 :: r3 =>
              isQuoteCh q2 && starThen anyCh (litThen "execute".data (fun _ => true)) r3
          | [] => false))))) r
  | [] => false

/-- `re.search` of any of the three `sql_patterns` (lines 158-162). -/
def sql_injection_match (line : String) : Bool :=
  searchAt sql_pattern_one line.data || searchAt sql_pattern_two line.data ||
    searchAt sql_pattern_three line.data

/-- Third block of `_check_python_vulnerability` (lines 158-173): SQL
injection patterns. -/
def check_sql_injection (line : String) (lineNum : Nat) (filePath : String) :
    Option SecFinding :=
  if sql_injection_match line then
    some ⟨filePath, lineNum, "high", "Potential SQL injection vulnerability", some line,
      "Use parameterized queries or ORM instead of string formatting"⟩
  else none

/-- Fourth block of `_check_python_vulnerability` (lines 176-184): path
traversal substrings. -/
def check_path_traversal (line : String) (lineNum : Nat) (filePath : String) :
    Option SecFinding :=
  if containsStr "../" line || containsStr "..\\" line then
    some ⟨filePath, lineNum, "medium", "Potential path traversal vulnerability", some line,
      "Validate and sanitize file paths"⟩
  else none

/-- `SecurityScanner._check_python_vulnerability` (scan_security.py lines
113-186): the four blocks in source order, each `return` short-circuiting
the later blocks. -/
def check_python_vulnerability (line : String) (lineNum : Nat) (filePath : String) :
    Option SecFinding :=
  match check_dangerous_functions line lineNum filePath with
  | some v => some v
  | none =>
    match check_hardcoded_secret line lineNum filePath with
    | some v => some v
    | none =>
      match check_sql_injection line lineNum filePath with
      | some v => some v
      | none => check_path_traversal line lineNum filePath

/-- `SecurityScanner._scan_python_file`: per line (1-based, stripped) collect
the at-most-one vulnerability; a read failure produces the single info
finding of the `except` branch. -/
def scan_python_file (f : TextFile) : List SecFinding :=
  match f.data with
  | .error e =>
      [⟨f.path, 0, "info", "Could not scan file: " ++ e, none,
        "Check file permissions and encoding"⟩]
  | .ok lines =>
      (enumerateFrom 1 lines).filterMap
        (fun il => check_python_vulnerability (pyStrip il.2) il.1 f.path)

/-- The per-language result dict `{"files_scanned": _, "vulnerabilities": _}`. -/
structure ScanLangResult where
  files_scanned : Nat
  vulnerabilities : List SecFinding
  deriving DecidableEq

/-- `SecurityScanner.scan_python_files`. -/
def scan_python_files (files : List TextFile) : Option ScanLangResult :=
  if files.isEmpty then none
  else some ⟨files.length, files.flatMap scan_python_file⟩

/-- The `dangerous_commands` dict of `_check_shell_vulnerability` (lines
241-247), in insertion order. -/
def shell_dangerous_commands : List VulnSig :=
  [⟨"rm -rf /", "critical", "Dangerous rm command",
    "Never use rm -rf / - specify exact paths"⟩,
   ⟨"chmod 777", "high", "Overly permissive permissions",
    "Use minimal required permissions"⟩,
   ⟨"curl | bash", "high", "Piping curl to bash",
    "Download script first, review it, then execute"⟩,
   ⟨"wget | bash", "high", "Piping wget to bash",
    "Download script first, review it, then execute"⟩,
   ⟨"sudo ", "medium", "Use of sudo",
    "Minimize sudo usage and use specific permissions"⟩]

/-- First block of `_check_shell_vulnerability` (lines 241-258). -/
def check_shell_dangerous (line : String) (lineNum : Nat) (filePath : String) :
    Option SecFinding :=
  (shell_dangerous_commands.find? (fun v => containsStr v.pattern line)).map
    (fun v => ⟨filePath, lineNum, v.severity, v.issue, some line, v.recommendation⟩)

/-- Second block of `_check_shell_vulnerability` (lines 261-269): variable
injection. -/
def check_shell_var_injection (line : String) (lineNum : Nat) (filePath : String) :
    Option SecFinding :=
  if containsStr "$" line && (containsStr "eval" line || containsStr "source" line) then
    some ⟨filePath, lineNum, "high", "Potential command injection via variable", some line,
      "Validate and sanitize variables before using in commands"⟩
  else none

/-- The three `password_patterns` regexes (lines 272-276) are all applied
with `re.IGNORECASE`; lowercased, their keywords are these (the first two
regexes collapse to the same lowercase keyword). -/
def shell_password_keywords : List String := ["password", "password", "passwd"]

/-- Third block of `_check_shell_vulnerability` (lines 272-287): hardcoded
passwords. -/
def check_shell_password (line : String) (lineNum : Nat) (filePath : String) :
    Option SecFinding :=
  if shell_password_keywords.any (fun kw => secret_keyword_match kw line) then
    some ⟨filePath, lineNum, "high", "Potential hardcoded password", some line,
      "Use environment variables or secure credential storage"⟩
  else none

/-- `SecurityScanner._check_shell_vulnerability` (lines 237-289). -/
def check_shell_vulnerability (line : String) (lineNum : Nat) (filePath : String) :
    Option SecFinding :=
  match check_shell_dangerous line lineNum filePath with
  | some v => some v
  | none =>
    match check_shell_var_injection line lineNum filePath with
    | some v => some v
    | none => check_shell_password line lineNum filePath

/-- `SecurityScanner._scan_shell_file`. -/
def scan_shell_file (f : TextFile) : List SecFinding :=
  match f.data with
  | .error e =>
      [⟨f.path, 0, "info", "Could not scan file: " ++ e, none,
        "Check file permissions and encoding"⟩]
  | .ok lines =>
      (enumerateFrom 1 lines).filterMap
        (fun il => check_shell_vulnerability (pyStrip il.2) il.1 f.path)

/-- `SecurityScanner.scan_shell_scripts`. -/
def scan_shell_scripts (files : List TextFile) : Option ScanLangResult :=
  if files.isEmpty then none
  else some ⟨files.length, files.flatMap scan_shell_file⟩

/-- The keyword list of `_scan_config_file` (line 330). -/
def config_secret_keywords : List String := ["password", "secret", "key", "token"]

/-- `SecurityScanner._scan_config_file`. -/
def scan_config_file (f : TextFile) : List SecFinding :=
  match f.data with
  | .error e =>
      [⟨f.path, 0, "info", "Could not scan config file: " ++ e, none,
        "Check file permissions and format"⟩]
  | .ok lines =>
      (enumerateFrom 1 lines).filterMap (fun il =>
        let lc := pyStrip il.2
        if config_secret_keywords.any (fun kw => containsStr kw (lowerStr lc)) &&
            (containsStr "=" lc || containsStr ":" lc) then
          some ⟨f.path, il.1, "medium", "Potential sensitive data in config file", some lc,
            "Move sensitive data to environment variables or secure vaults"⟩
        else none)

/-- `SecurityScanner.scan_config_files`. -/
def scan_config_files (files : List TextFile) : Option ScanLangResult :=
  if files.isEmpty then none
  else some ⟨files.length, files.flatMap scan_config_file⟩

/-- `os.stat` metadata of a file: `st_mode` and `st_size`. -/
structure StatInfo where
  mode : Nat
  size : Nat
  deriving DecidableEq

/-- A file as seen by `scan_general_security`: its path and its stat result
(`none` when `stat()` raised; the bare `except` skips the file). -/
structure StatFile where
  path : String
  stat : Option StatInfo
  deriving DecidableEq

/-- Python's `oct()` rendering used in the world-writable finding. -/
def octStr (n : Nat) : String := "0o" ++ String.mk (Nat.toDigits 8 n)

/-- First loop of `scan_general_security` (lines 359-374): world-writable
files (`st_mode & 0o002`). -/
def world_writable_finding (f : StatFile) : Option SecFinding :=
  match f.stat with
  | none => none
  | some st =>
      if Nat.land st.mode 2 != 0 then
        some ⟨f.path, 0, "medium", "World-writable file",
          some ("Permissions: " ++ octStr st.mode), "Remove world-write permissions: chmod o-w"⟩
      else none

/-- Second loop of `scan_general_security` (lines 377-391): files larger
than 100 MB. -/
def large_file_finding (f : StatFile) : Option SecFinding :=
  match f.stat with
  | none => none
  | some st =>
      if st.size > 100 * 1024 * 1024 then
        some ⟨f.path, 0, "low", "Very large file",
          some ("Size: " ++ toString st.size ++ " bytes"),
          "Consider if this file should be in version control"⟩
      else none

/-- The `{"vulnerabilities": _}` result of `scan_general_security`. -/
structure GeneralScanResult where
  vulnerabilities : List SecFinding
  deriving DecidableEq

/-- `SecurityScanner.scan_general_security` (lines 352-393). -/
def scan_general_security (files : List StatFile) : Option GeneralScanResult :=
  let vulns := files.filterMap world_writable_finding ++ files.filterMap large_file_finding
  if vulns.isEmpty then none else some ⟨vulns⟩

/-- The scanner's severity buckets `self.vulnerabilities` (its only instance
state besides the project root). -/
structure SevBuckets where
  critical : List SecFinding
  high : List SecFinding
  medium : List SecFinding
  low : List SecFinding
  info : List SecFinding
  deriving DecidableEq

/-- The buckets as initialised by `SecurityScanner.__init__`. -/
def sec_empty_buckets : SevBuckets := ⟨[], [], [], [], []⟩

/-- The summary dict of `SecurityScanner._calculate_summary` (lines
395-411), computed from the severity buckets. -/
structure SecSummary where
  total_vulnerabilities : Nat
  critical_count : Nat
  high_count : Nat
  medium_count : Nat
  low_count : Nat
  info_count : Nat
  deriving DecidableEq

/-- `SecurityScanner._calculate_summary`. -/
def sec_calculate_summary (b : SevBuckets) : SecSummary :=
  ⟨b.critical.length + b.high.length + b.medium.length + b.low.length + b.info.length,
   b.critical.length, b.high.length, b.medium.length, b.low.length, b.info.length⟩

/-- `SecurityScanner._generate_recommendations` (lines 413-438). -/
def sec_generate_recommendations (b : SevBuckets) : List String :=
  let s := sec_calculate_summary b
  (if s.critical_count > 0 then
     ["🚨 Address " ++ toString s.critical_count ++ " critical vulnerabilities immediately"]
   else []) ++
  (if s.high_count > 0 then
     ["⚠️ Fix " ++ toString s.high_count ++ " high-severity issues before deployment"]
   else []) ++
  (if s.medium_count > 0 then
     ["📋 Review " ++ toString s.medium_count ++ " medium-severity issues"]
   else []) ++
  (if s.total_vulnerabilities == 0 then ["✅ No security vulnerabilities found"] else []) ++
  ["🔐 Use environment variables for sensitive configuration",
   "🛡️ Implement input validation and sanitization",
   "📝 Use parameterized queries to prevent SQL injection",
   "🔒 Apply principle of least privilege for file permissions",
   "🔍 Regularly scan for vulnerabilities in dependencies"]

/-- The `results["languages"]` dict of `scan_all_files`, in insertion
order. -/
structure SecLanguages where
  python : Option ScanLangResult
  shell : Option ScanLangResult
  config : Option ScanLangResult
  general : Option GeneralScanResult
  deriving DecidableEq

/-- The full result dict of `SecurityScanner.scan_all_files`. -/
structure SecScanResults where
  vulnerabilities : SevBuckets
  summary : SecSummary
  languages : SecLanguages
  recommendations : List String
  deriving DecidableEq

/-- The file sets the scanner's four passes glob from the project root:
`**/*.py`, `**/*.sh`, the config patterns, and `**/*` with stat metadata. -/
structure SecProject where
  pyFiles : List TextFile
  shFiles : List TextFile
  configFiles : List TextFile
  allFiles : List StatFile
  deriving DecidableEq

/-- `SecurityScanner.scan_all_files` (lines 27-62), with the instance state
`self.vulnerabilities` threaded explicitly: the result copies the buckets
into `results["vulnerabilities"]` and derives `summary` and
`recommendations` from them, while the per-language findings go only into
`results["languages"]`; the buckets themselves are returned unchanged (no
code path appends to them). -/
def scan_all_files (p : SecProject) (state : SevBuckets) : SecScanResults × SevBuckets :=
  (⟨state,
    sec_calculate_summary state,
    ⟨scan_python_files p.pyFiles, scan_shell_scripts p.shFiles,
     scan_config_files p.configFiles, scan_general_security p.allFiles⟩,
    sec_generate_recommendations state⟩, state)

/-- The path-to-content part of a security project: contents of the text
files of the three content passes, plus the mere path list of the metadata
pass (whose contents are never read). -/
def sec_project_contents (p : SecProject) :
    List TextFile × List TextFile × List TextFile × List String :=
  (p.pyFiles, p.shFiles, p.configFiles, p.allFiles.map (fun f => f.path))

/-! ## QualityGateManager gate-status decisions (`run_quality_gates.py`)

Each gate of `run_all_quality_gates` fills a result dict whose `status`
starts as `"unknown"` and is then set by a final `if/elif/else` over the
gate's aggregated counts against `self.thresholds`.  The aggregated counts
come from subprocess output or fallback file walks; they enter the model as
explicit inputs, and the functions below are the status decisions of lines
104-109, 143-148, 221-228 and 293-298. -/

/-- `run_linting_checks` status decision: errors over `max_errors` (0) fail,
warnings over `max_warnings` (10) warn, else pass. -/
def linting_status (total_errors total_warnings : Nat) : Status :=
  if total_errors > 0 then .failed
  else if total_warnings > 10 then .warning
  else .passed

/-- `run_complexity_analysis` status decision: max complexity over 10 fails,
max lines over 100 warns, else passes. -/
def complexity_gate_status (max_complexity max_lines : Nat) : Status :=
  if max_complexity > 10 then .failed
  else if max_lines > 100 then .warning
  else .passed

/-- `run_security_scanning` status decision over the severity counts of the
gate's vulnerability buckets: critical over 0 or high over 0 fail, medium
over 5 warns, else passes. -/
def security_gate_status (critical_count high_count medium_count : Nat) : Status :=
  if critical_count > 0 then .failed
  else if high_count > 0 then .failed
  else if medium_count > 5 then .warning
  else .passed

/-- `run_code_review_checks` status decision over the review score (a Python
float, modelled as a rational): at least 90 passes, at least 75 warns, else
fails. -/
def review_gate_status (score : ℚ) : Status :=
  if score ≥ 90 then .passed
  else if score ≥ 75 then .warning
  else .failed

/-- The gate result of `run_security_scanning` on the dedicated-scanner path
(lines 159-230): the returncode-0 branch reads the scanner's latest report,
takes its `vulnerabilities` dict, derives the five severity counts from the
bucket lengths and decides the status. -/
structure SecGateResult where
  status : Status
  vulnerabilities : SevBuckets
  critical_count : Nat
  high_count : Nat
  medium_count : Nat
  low_count : Nat
  info_count : Nat
  deriving DecidableEq

/-- `QualityGateManager.run_security_scanning`, dedicated-scanner path,
consuming the report produced by `SecurityScanner.scan_all_files`. -/
def run_security_scanning_from_report (r : SecScanResults) : SecGateResult :=
  let v := r.vulnerabilities
  ⟨security_gate_status v.critical.length v.high.length v.medium.length,
   v, v.critical.length, v.high.length, v.medium.length, v.low.length, v.info.length⟩

/-- The externally-derived aggregates feeding the four status decisions of
`run_all_quality_gates`. -/
structure GateInputs where
  lint_errors : Nat
  lint_warnings : Nat
  max_complexity : Nat
  max_lines : Nat
  sec_critical : Nat
  sec_high : Nat
  sec_medium : Nat
  review_score : ℚ

/-- The `results["gates"]` statuses of `run_all_quality_gates`, in the
insertion order linting, complexity, security, review. -/
def run_all_gate_statuses (g : GateInputs) : List Status :=
  [linting_status g.lint_errors g.lint_warnings,
   complexity_gate_status g.max_complexity g.max_lines,
   security_gate_status g.sec_critical g.sec_high g.sec_medium,
   review_gate_status g.review_score]

/-- The `results["overall_status"]` written by `run_all_quality_gates`. -/
def run_all_overall_status (g : GateInputs) : Status :=
  calculate_overall_status (run_all_gate_statuses g)

/-! ## ComplexityAnalyzer (`complexity/analyze_complexity.py`) -/

/-- The `self.thresholds` dict of `ComplexityAnalyzer.__init__` (lines
18-25). -/
structure CxThresholds where
  cyclomatic : Nat
  lines_per_function : Nat
  lines_per_file : Nat
  nesting_depth : Nat
  deriving DecidableEq

/-- The threshold values fixed by the constructor. -/
def cx_thresholds : CxThresholds := ⟨10, 50, 300, 4⟩

/-- The control-flow keyword list of `_calculate_cyclomatic_complexity`
(line 170). -/
def cx_branch_keywords : List String := ["if ", "elif ", "for ", "while ", "case ", "&&", "||"]

/-- `line.count(' and ') + line.count(' or ')` for a (stripped) line. -/
def line_and_or_count (l : String) : Nat := countStr " and " l + countStr " or " l

/-- `ComplexityAnalyzer._calculate_cyclomatic_complexity` (lines 163-177):
base 1; per stripped line, +1 if it contains any control-flow keyword, +1 if
it contains `except `, plus the number of ` and `/` or ` occurrences. -/
def calculate_cyclomatic_complexity (lines : List String) : Nat :=
  lines.foldl (fun complexity line =>
    let l := pyStrip line
    let complexity :=
      if cx_branch_keywords.any (fun kw => containsStr kw l) then complexity + 1
      else complexity
    let complexity := if containsStr "except " l then complexity + 1 else complexity
    if line_and_or_count l > 0 then complexity + line_and_or_count l else complexity) 1

/-- An `ast.FunctionDef` node as used by `_analyze_python_function`: name,
`lineno`, `end_lineno` and the number of positional arguments. -/
structure PyFuncNode where
  name : String
  lineno : Nat
  end_lineno : Nat
  args : Nat
  deriving DecidableEq

/-- An `ast.ClassDef` node as recorded by `_analyze_python_file`: name,
`lineno` and the number of `FunctionDef` statements in its body. -/
structure PyClassNode where
  name : String
  lineno : Nat
  methods : Nat
  deriving DecidableEq

/-- The function/class nodes yielded by `ast.walk` on a parsed file, in walk
order. -/
structure CxParsed where
  funcs : List PyFuncNode
  classes : List PyClassNode
  deriving DecidableEq

/-- The per-function result dict of `_analyze_python_function`. -/
structure CxFuncResult where
  name : String
  line : Nat
  lines : Nat
  complexity : Nat
  args : Nat
  deriving DecidableEq

/-- `ComplexityAnalyzer._analyze_python_function` (lines 147-161): the
function's line span is `lines[start_line:end_line + 1]` with
`start_line = lineno - 1` and `end_line = end_lineno - 1`. -/
def analyze_python_function (node : PyFuncNode) (lines : List String) : CxFuncResult :=
  let start_line := node.lineno - 1
  let end_line := node.end_lineno - 1
  let function_lines := (lines.drop start_line).take (end_line + 1 - start_line)
  ⟨node.name, node.lineno, function_lines.length,
   calculate_cyclomatic_complexity function_lines, node.args⟩

/-- The classes entry dict of `_analyze_python_file`. -/
structure CxClassResult where
  name : String
  line : Nat
  methods : Nat
  deriving DecidableEq

/-- The per-file result dict of `_analyze_python_file` (lines 118-145). -/
structure CxFileResult where
  file : String
  total_lines : Nat
  functions : List CxFuncResult
  classes : List CxClassResult
  deriving DecidableEq

/-- `ComplexityAnalyzer._analyze_python_file` on a file that opened and
parsed successfully. -/
def analyze_python_file (path : String) (lines : List String) (p : CxParsed) :
    CxFileResult :=
  ⟨path, lines.length,
   p.funcs.map (fun n => analyze_python_function n lines),
   p.classes.map (fun c => ⟨c.name, c.lineno, c.methods⟩)⟩

/-- A Python file handed to the complexity analyzer: `none` when reading or
`ast.parse` raised (the `except Exception` of `analyze_python_files` prints
a warning and skips the file), otherwise the content lines plus the walked
nodes. -/
structure CxPyFile where
  path : String
  data : Option (List String × CxParsed)
  deriving DecidableEq

/-- An entry of the `complex_functions` list. -/
structure CxComplexEntry where
  file : String
  function : String
  complexity : Nat
  line : Nat
  deriving DecidableEq

/-- An entry of the `long_functions` list. -/
structure CxLongFuncEntry where
  file : String
  function : String
  lines : Nat
  line : Nat
  deriving DecidableEq

/-- An entry of the `long_files` list. -/
structure CxLongFileEntry where
  file : String
  lines : Nat
  deriving DecidableEq

/-- The `results["files"]` list built by `analyze_python_files`: files whose
analysis raised are skipped. -/
def cx_file_results (files : List CxPyFile) : List CxFileResult :=
  files.filterMap (fun f => f.data.map (fun d => analyze_python_file f.path d.1 d.2))

/-- The `results["complex_functions"]` list of `analyze_python_files` (lines
89-96): functions whose complexity exceeds `thresholds["cyclomatic"]`. -/
def cx_complex_functions (files : List CxPyFile) : List CxComplexEntry :=
  files.flatMap (fun f =>
    match f.data with
    | none => []
    | some d =>
        (analyze_python_file f.path d.1 d.2).functions.filterMap (fun fr =>
          if fr.complexity > cx_thresholds.cyclomatic then
            some ⟨f.path, fr.name, fr.complexity, fr.line⟩
          else none))

/-- The `results["long_functions"]` list of `analyze_python_files` (lines
98-104): functions whose span exceeds `thresholds["lines_per_function"]`. -/
def cx_long_functions (files : List CxPyFile) : List CxLongFuncEntry :=
  files.flatMap (fun f =>
    match f.data with
    | none => []
    | some d =>
        (analyze_python_file f.path d.1 d.2).functions.filterMap (fun fr =>
          if fr.lines > cx_thresholds.lines_per_function then
            some ⟨f.path, fr.name, fr.lines, fr.line⟩
          else none))

/-- The `results["long_files"]` list of `analyze_python_files` (lines
106-111): files whose total lines exceed `thresholds["lines_per_file"]`. -/
def cx_long_files (files : List CxPyFile) : List CxLongFileEntry :=
  files.filterMap (fun f =>
    f.data.bind (fun d =>
      let r := analyze_python_file f.path d.1 d.2
      if r.total_lines > cx_thresholds.lines_per_file then some ⟨f.path, r.total_lines⟩
      else none))

/-- The result dict of `analyze_python_files`. -/
structure CxPyResults where
  file_count : Nat
  files : List CxFileResult
  complex_functions : List CxComplexEntry
  long_functions : List CxLongFuncEntry
  long_files : List CxLongFileEntry
  deriving DecidableEq

/-- `ComplexityAnalyzer.analyze_python_files` (lines 69-116): `None` when
the glob finds no Python files, else the per-file loop with its three
threshold checks (a per-file exception skips that file only). -/
def analyze_python_files (files : List CxPyFile) : Option CxPyResults :=
  if files.isEmpty then none
  else some ⟨files.length, cx_file_results files, cx_complex_functions files,
             cx_long_functions files, cx_long_files files⟩

/-- Take the maximal leading run of `\w` characters, returning the run and
the remainder (used to extract `group(1)` of the anchored `\w+` captures). -/
def takeWordRun : List Char → List Char × List Char
  | [] => ([], [])
  | c :: rest =>
      if isWordCh c then
        let p := takeWordRun rest
        (c :: p.1, p.2)
      else ([], c :: rest)

/-- After the captured shell function name: the regex tail `\s*\(\)\s*\{`
(re.match is not anchored at the end, so trailing characters are allowed). -/
def afterNameShell (s : List Char) : Bool :=
  match dropSpaces s with
  | '(' :: ')' :: r =>
      (match dropSpaces r with
       | '{' :: _ => true
       | _ => false)
  | _ => false

/-- The `(\w+)\s*\(\)\s*\{` part of the shell function regex: a non-empty
word run (the capture) followed by `afterNameShell`.  The run is maximal,
which is where Python's greedy `\w+` ends up since `\w` can match neither
`\s` nor `(`. -/
def shellPlainFuncName (s : List Char) : Option String :=
  let p := takeWordRun s
  if p.1.isEmpty then none
  else if afterNameShell p.2 then some (String.mk p.1) else none

/-- `re.match(r'^(?:function\s+)?(\w+)\s*\(\)\s*\{', line.strip())` of
`_analyze_shell_file` (line 236), returning the captured function name.  The
optional `function\s+` prefix is tried first (greedy), falling back to the
bare form exactly as the regex engine backtracks. -/
def shell_func_match (line : String) : Option String :=
  let s := (pyStrip line).data
  let withKw :=
    if listPref "function".data s then
      match s.drop 8 with
      | c :: r2 => if isSpaceCh c then shellPlainFuncName (dropSpaces r2) else none
      | [] => none
    else none
  withKw.orElse (fun _ => shellPlainFuncName s)

/-- Loop body of `_find_shell_function_end` (lines 251-259): running brace
count over the stripped lines, answering the first index at which the count
returns to zero on a line containing `}`. -/
def find_shell_function_end_go : List String → Nat → Int → Option Nat
  | [], _, _ => none
  | l :: rest, i, bc =>
      let l' := pyStrip l
      let bc' := bc + (countStr "\x7b" l' : Int) - (countStr "\x7d" l' : Int)
      if bc' == 0 && containsStr "\x7d" l' then some i
      else find_shell_function_end_go rest (i + 1) bc'

/-- `ComplexityAnalyzer._find_shell_function_end`. -/
def find_shell_function_end (lines : List String) (start_idx : Nat) : Option Nat :=
  find_shell_function_end_go (lines.drop start_idx) start_idx 0

/-- The function entry dict of `_analyze_shell_file`. -/
structure CxShellFuncResult where
  name : String
  line : Nat
  lines : Nat
  deriving DecidableEq

/-- The per-file result dict of `_analyze_shell_file`. -/
structure CxShellFileResult where
  file : String
  total_lines : Nat
  functions : List CxShellFuncResult
  deriving DecidableEq

/-- `ComplexityAnalyzer._analyze_shell_file` (lines 220-249): enumerate the
lines (0-based), and for each matching function definition record
`end_line - i` when an end is found, `10` otherwise. -/
def analyze_shell_file (path : String) (lines : List String) : CxShellFileResult :=
  ⟨path, lines.length,
   (enumerateFrom 0 lines).filterMap (fun il =>
     (shell_func_match il.2).map (fun name =>
       let func_lines :=
         match find_shell_function_end lines il.1 with
         | some e => e - il.1
         | none => 10
       ⟨name, il.1 + 1, func_lines⟩))⟩

/-- A shell file handed to the complexity analyzer (`none` when reading
raised; the per-file `except` skips it). -/
structure CxShellFile where
  path : String
  data : Option (List String)
  deriving DecidableEq

/-- The result dict of `analyze_shell_files`. -/
structure CxShellResults where
  file_count : Nat
  files : List CxShellFileResult
  complex_functions : List CxComplexEntry
  long_functions : List CxLongFuncEntry
  long_files : List CxLongFileEntry
  deriving DecidableEq

/-- The `long_files` list of `analyze_shell_files` (lines 198-203). -/
def cx_shell_long_files (files : List CxShellFile) : List CxLongFileEntry :=
  files.filterMap (fun f =>
    f.data.bind (fun lines =>
      let r := analyze_shell_file f.path lines
      if r.total_lines > cx_thresholds.lines_per_file then some ⟨f.path, r.total_lines⟩
      else none))

/-- The `long_functions` list of `analyze_shell_files` (lines 205-213). -/
def cx_shell_long_functions (files : List CxShellFile) : List CxLongFuncEntry :=
  files.flatMap (fun f =>
    match f.data with
    | none => []
    | some lines =>
        (analyze_shell_file f.path lines).functions.filterMap (fun fr =>
          if fr.lines > cx_thresholds.lines_per_function then
            some ⟨f.path, fr.name, fr.lines, fr.line⟩
          else none))

/-- `ComplexityAnalyzer.analyze_shell_files` (lines 179-218); the
`complex_functions` list is initialised but nothing in the shell loop ever
appends to it. -/
def analyze_shell_files (files : List CxShellFile) : Option CxShellResults :=
  if files.isEmpty then none
  else some ⟨files.length,
             files.filterMap (fun f => f.data.map (analyze_shell_file f.path)),
             [], cx_shell_long_functions files, cx_shell_long_files files⟩

/-- After the captured JS function name: the regex tail
`\s*\([^)]*\)\s*\{`. -/
def afterNameJs (s : List Char) : Bool :=
  match dropSpaces s with
  | '(' :: r =>
      (match r.dropWhile (fun c => c != ')') with
       | ')' :: r3 =>
           (match dropSpaces r3 with
            | '{' :: _ => true
            | _ => false)
       | _ => false)
  | _ => false

/-- The `(\w+)\s*\([^)]*\)\s*\{` part of the JS function regex. -/
def jsNamePart (s : List Char) : Option String :=
  let p := takeWordRun s
  if p.1.isEmpty then none
  else if afterNameJs p.2 then some (String.mk p.1) else none

/-- After `=`: the optional `\([^)]*\)\s*=>` arrow-head, then `\s*` and the
name part (the arrow alternative is tried first, as the regex engine
does). -/
def jsAfterEq (s : List Char) : Option String :=
  let withArrow :=
    match s with
    | '(' :: r =>
        (match r.dropWhile (fun c => c != ')') with
         | ')' :: r3 =>
             (match dropSpaces r3 with
              | '=' :: '>' :: r4 => jsNamePart (dropSpaces r4)
              | _ => none)
         | _ => none)
    | _ => none
  withArrow.orElse (fun _ => jsNamePart (dropSpaces s))

/-- The `(?:const|let|var)\s+\w+\s*=\s*...` alternative of the JS function
regex. -/
def jsBranchDecl (s : List Char) : Option String :=
  let tryKw (kw : List Char) : Option String :=
    if listPref kw s then
      match s.drop kw.length with
      | c :: r =>
          if isSpaceCh c then
            let p := takeWordRun (dropSpaces r)
            if p.1.isEmpty then none
            else
              match dropSpaces p.2 with
              | '=' :: r3 => jsAfterEq (dropSpaces r3)
              | _ => none
          else none
      | [] => none
    else none
  (tryKw "const".data).orElse (fun _ =>
    (tryKw "let".data).orElse (fun _ => tryKw "var".data))

/-- `re.match` of the JS function regex of `_analyze_javascript_file` (line
326), returning the captured name (`group(1)` is the `\w+` capture, which is
never empty, so the `"anonymous"` fallback of the source is dead). -/
def js_func_match (line : String) : Option String :=
  let s := (pyStrip line).data
  let branchFn :=
    if listPref "function".data s then
      match s.drop 8 with
      | c :: r => if isSpaceCh c then jsNamePart (dropSpaces r) else none
      | [] => none
    else none
  branchFn.orElse (fun _ => jsBranchDecl s)

/-- Loop body of `_estimate_js_function_length` (lines 344-352): brace
counting over at most 100 lines starting at the function head. -/
def js_len_go : List String → Nat → Nat → Int → Option Nat
  | [], _, _, _ => none
  | _ :: _, 0, _, _ => none
  | l :: rest, fuel + 1, idx, bc =>
      let l' := pyStrip l
      let bc' := bc + (countStr "\x7b" l' : Int) - (countStr "\x7d" l' : Int)
      if bc' == 0 && containsStr "\x7d" l' then some idx
      else js_len_go rest fuel (idx + 1) bc'

/-- `ComplexityAnalyzer._estimate_js_function_length`. -/
def estimate_js_function_length (lines : List String) (start_idx : Nat) : Nat :=
  match js_len_go (lines.drop start_idx) 100 0 0 with
  | some off => off + 1
  | none => min 50 (lines.length - start_idx)

/-- The keyword list of `_calculate_js_complexity` (line 360). -/
def js_keywords : List String := ["if ", "for ", "while ", "switch ", "&&", "||", "?"]

/-- `ComplexityAnalyzer._calculate_js_complexity` (lines 354-365). -/
def calculate_js_complexity (lines : List String) : Nat :=
  lines.foldl (fun c line =>
    let l := pyStrip line
    let c := if js_keywords.any (fun kw => containsStr kw l) then c + 1 else c
    if containsStr "catch " l then c + 1 else c) 1

/-- The function entry dict of `_analyze_javascript_file`. -/
structure CxJsFuncResult where
  name : String
  line : Nat
  lines : Nat
  complexity : Nat
  deriving DecidableEq

/-- The per-file result dict of `_analyze_javascript_file`. -/
structure CxJsFileResult where
  file : String
  total_lines : Nat
  functions : List CxJsFuncResult
  deriving DecidableEq

/-- `ComplexityAnalyzer._analyze_javascript_file` (lines 310-342). -/
def analyze_javascript_file (path : String) (lines : List String) : CxJsFileResult :=
  ⟨path, lines.length,
   (enumerateFrom 0 lines).filterMap (fun il =>
     (js_func_match il.2).map (fun name =>
       let func_lines := estimate_js_function_length lines il.1
       let complexity := calculate_js_complexity ((lines.drop il.1).take func_lines)
       ⟨name, il.1 + 1, func_lines, complexity⟩))⟩

/-- A JS/TS file handed to the complexity analyzer (`none` when reading
raised). -/
structure CxJsFile where
  path : String
  data : Option (List String)
  deriving DecidableEq

/-- The result dict of `analyze_javascript_files`. -/
structure CxJsResults where
  file_count : Nat
  files : List CxJsFileResult
  complex_functions : List CxComplexEntry
  long_functions : List CxLongFuncEntry
  long_files : List CxLongFileEntry
  deriving DecidableEq

/-- The `complex_functions` list of `analyze_javascript_files` (lines
281-288). -/
def cx_js_complex_functions (files : List CxJsFile) : List CxComplexEntry :=
  files.flatMap (fun f =>
    match f.data with
    | none => []
    | some lines =>
        (analyze_javascript_file f.path lines).functions.filterMap (fun fr =>
          if fr.complexity > cx_thresholds.cyclomatic then
            some ⟨f.path, fr.name, fr.complexity, fr.line⟩
          else none))

/-- The `long_functions` list of `analyze_javascript_files` (lines
290-296). -/
def cx_js_long_functions (files : List CxJsFile) : List CxLongFuncEntry :=
  files.flatMap (fun f =>
    match f.data with
    | none => []
    | some lines =>
        (analyze_javascript_file f.path lines).functions.filterMap (fun fr =>
          if fr.lines > cx_thresholds.lines_per_function then
            some ⟨f.path, fr.name, fr.lines, fr.line⟩
          else none))

/-- The `long_files` list of `analyze_javascript_files` (lines 298-303). -/
def cx_js_long_files (files : List CxJsFile) : List CxLongFileEntry :=
  files.filterMap (fun f =>
    f.data.bind (fun lines =>
      let r := analyze_javascript_file f.path lines
      if r.total_lines > cx_thresholds.lines_per_file then some ⟨f.path, r.total_lines⟩
      else none))

/-- `ComplexityAnalyzer.analyze_javascript_files` (lines 261-308). -/
def analyze_javascript_files (files : List CxJsFile) : Option CxJsResults :=
  if files.isEmpty then none
  else some ⟨files.length,
             files.filterMap (fun f => f.data.map (analyze_javascript_file f.path)),
             cx_js_complex_functions files, cx_js_long_functions files,
             cx_js_long_files files⟩

/-- The `results["summary"]` dict of `analyze_all_files`. -/
structure CxSummary where
  total_files : Nat
  complex_files : Nat
  high_complexity_functions : Nat
  long_functions : Nat
  long_files : Nat
  deriving DecidableEq

/-- The `results["languages"]` dict of `analyze_all_files`, in insertion
order. -/
structure CxLanguages where
  python : Option CxPyResults
  shell : Option CxShellResults
  javascript : Option CxJsResults
  deriving DecidableEq

/-- The full result dict of `ComplexityAnalyzer.analyze_all_files`. -/
structure CxAllResults where
  summary : CxSummary
  languages : CxLanguages
  recommendations : List String
  deriving DecidableEq

/-- The file sets the analyzer's three passes glob from the project root. -/
structure CxProject where
  pyFiles : List CxPyFile
  shFiles : List CxShellFile
  jsFiles : List CxJsFile
  deriving DecidableEq

/-- `total_files` accumulation of `analyze_all_files` (lines 43-59) followed
by `_calculate_summary_stats` (lines 367-375). -/
def cx_summary_of (langs : CxLanguages) : CxSummary :=
  let pyCount := (langs.python.map (fun r => r.file_count)).getD 0
  let shCount := (langs.shell.map (fun r => r.file_count)).getD 0
  let jsCount := (langs.javascript.map (fun r => r.file_count)).getD 0
  let pyCx := (langs.python.map (fun r => r.complex_functions.length)).getD 0
  let shCx := (langs.shell.map (fun r => r.complex_functions.length)).getD 0
  let jsCx := (langs.javascript.map (fun r => r.complex_functions.length)).getD 0
  let pyLf := (langs.python.map (fun r => r.long_functions.length)).getD 0
  let shLf := (langs.shell.map (fun r => r.long_functions.length)).getD 0
  let jsLf := (langs.javascript.map (fun r => r.long_functions.length)).getD 0
  let pyFl := (langs.python.map (fun r => r.long_files.length)).getD 0
  let shFl := (langs.shell.map (fun r => r.long_files.length)).getD 0
  let jsFl := (langs.javascript.map (fun r => r.long_files.length)).getD 0
  ⟨pyCount + shCount + jsCount, pyCx + shCx + jsCx, pyCx + shCx + jsCx,
   pyLf + shLf + jsLf, pyFl + shFl + jsFl⟩

/-- `ComplexityAnalyzer._generate_recommendations` (lines 377-398). -/
def cx_generate_recommendations (s : CxSummary) : List String :=
  let recs :=
    (if s.high_complexity_functions > 0 then
       ["🔧 Refactor " ++ toString s.high_complexity_functions ++
        " high-complexity functions (break into smaller functions)"]
     else []) ++
    (if s.long_functions > 0 then
       ["📏 Split " ++ toString s.long_functions ++
        " long functions into smaller, focused functions"]
     else []) ++
    (if s.long_files > 0 then
       ["📂 Break down " ++ toString s.long_files ++ " long files into multiple modules"]
     else []) ++
    (if s.complex_files > 0 then
       ["🏗️ Consider architectural improvements for " ++ toString s.complex_files ++
        " complex files"]
     else [])
  if recs.isEmpty then ["✅ Code complexity is within acceptable limits"] else recs

/-- `ComplexityAnalyzer.analyze_all_files` (lines 27-67).  The analyzer has
no mutable instance state (only the fixed thresholds), so the result is a
function of the globbed file data alone. -/
def analyze_all_files (p : CxProject) : CxAllResults :=
  let langs : CxLanguages :=
    ⟨analyze_python_files p.pyFiles, analyze_shell_files p.shFiles,
     analyze_javascript_files p.jsFiles⟩
  let summary := cx_summary_of langs
  ⟨summary, langs, cx_generate_recommendations summary⟩

/-! ## CodeReviewAutomator (`review/automate_review.py`) -/

mutual
/-- A Python AST statement node as consumed by `_analyze_ast` and the
docstring walk of `review_documentation`: `FunctionDef` (name, lineno,
number of `args.args`, whether `ast.get_docstring` is non-empty, body),
`ClassDef`, `If` (body and orelse), and a catch-all for every other node
kind with its child statements. -/
inductive PyNode where
  | functionDef (name : String) (lineno args : Nat) (hasDoc : Bool) (body : PyNodeList)
  | classDef (name : String) (lineno : Nat) (hasDoc : Bool) (body : PyNodeList)
  | ifStmt (lineno : Nat) (body orelse : PyNodeList)
  | other (children : PyNodeList)
  deriving DecidableEq
/-- A list of AST nodes (a separate mutual inductive so that all traversals
are structurally recursive). -/
inductive PyNodeList where
  | nil
  | cons (head : PyNode) (tail : PyNodeList)
  deriving DecidableEq
end

/-- `len` of a node list (Python's `len(node.body)`). -/
def PyNodeList.length : PyNodeList → Nat
  | .nil => 0
  | .cons _ t => t.length

mutual
/-- The inner helper `count_nested_ifs(node, depth)` of `visit_If`
(automate_review.py lines 184-190). -/
def count_nested_ifs : PyNode → Nat → Nat
  | .ifStmt _ body orelse, depth =>
      count_nested_ifs_list orelse (depth + 1)
        (count_nested_ifs_list body (depth + 1) (max depth (depth + 1)))
  | _, depth => depth
/-- Fold of `count_nested_ifs` over `node.body + node.orelse` with a running
maximum (the two sublists are folded in order). -/
def count_nested_ifs_list : PyNodeList → Nat → Nat → Nat
  | .nil, _, acc => acc
  | .cons c rest, depth, acc =>
      count_nested_ifs_list rest depth (max acc (count_nested_ifs c depth))
end

/-- A review finding, the dict appended throughout `automate_review.py`
(file, line, category, severity, issue, recommendation). -/
structure ReviewIssue where
  file : String
  line : Nat
  category : String
  severity : String
  issue : String
  recommendation : String
  deriving DecidableEq

mutual
/-- The `CodeAnalyzer` visitor of `_analyze_ast` (lines 134-207): per
`FunctionDef` a too-long check (`len(node.body) > 50`) and a parameter-count
check (`> 5`); per `ClassDef` a too-large check (`> 200`); per `If` the
nested-depth check (`> 3`); each handler then `generic_visit`s the
children. -/
def analyze_ast_node (fp : String) : PyNode → List ReviewIssue
  | .functionDef name lineno args _ body =>
      (if body.length > 50 then
         [⟨fp, lineno, "maintainability", "medium",
           "Function '" ++ name ++ "' is too long (" ++ toString body.length ++ " lines)",
           "Break down into smaller functions (max 30 lines)"⟩]
       else []) ++
      (if args > 5 then
         [⟨fp, lineno, "maintainability", "medium",
           "Function '" ++ name ++ "' has too many parameters (" ++ toString args ++ ")",
           "Use a configuration object or reduce parameters"⟩]
       else []) ++
      analyze_ast_list fp body
  | .classDef name lineno _ body =>
      (if body.length > 200 then
         [⟨fp, lineno, "maintainability", "medium",
           "Class '" ++ name ++ "' is too large (" ++ toString body.length ++ " lines)",
           "Split into smaller classes or modules"⟩]
       else []) ++
      analyze_ast_list fp body
  | .ifStmt lineno body orelse =>
      (if count_nested_ifs (.ifStmt lineno body orelse) 0 > 3 then
         [⟨fp, lineno, "maintainability", "medium",
           "Deeply nested if statements (depth " ++
             toString (count_nested_ifs (.ifStmt lineno body orelse) 0) ++ ")",
           "Extract nested logic into separate functions"⟩]
       else []) ++
      analyze_ast_list fp body ++ analyze_ast_list fp orelse
  | .other children => analyze_ast_list fp children
/-- `generic_visit`: visit all child nodes in order. -/
def analyze_ast_list (fp : String) : PyNodeList → List ReviewIssue
  | .nil => []
  | .cons n rest => analyze_ast_node fp n ++ analyze_ast_list fp rest
end

/-- Fold state for the `\b\d{2,}\b` scan of `_analyze_python_line`:
the pending digit run (reversed), whether the previous character was a word
character, and the matches collected so far. -/
structure MagicSt where
  run : Option (List Char)
  prevWord : Bool
  acc : List String
  deriving DecidableEq

/-- One character step of the `\b\d{2,}\b` scan: a maximal digit run counts
as a match exactly when it is at least two digits long and flanked by
non-word characters (or the ends of the string). -/
def magic_step (st : MagicSt) (c : Char) : MagicSt :=
  match st.run with
  | some r =>
      if c.isDigit then ⟨some (c :: r), true, st.acc⟩
      else if isWordCh c then ⟨none, true, st.acc⟩
      else ⟨none, false, st.acc ++ (if r.length ≥ 2 then [String.mk r.reverse] else [])⟩
  | none =>
      if c.isDigit && !st.prevWord then ⟨some [c], true, st.acc⟩
      else ⟨none, isWordCh c, st.acc⟩

/-- Close a digit run still pending at the end of the line. -/
def magic_finish (st : MagicSt) : List String :=
  match st.run with
  | some r => st.acc ++ (if r.length ≥ 2 then [String.mk r.reverse] else [])
  | none => st.acc

/-- `re.findall(r'\b\d{2,}\b', line)`: the standalone digit runs of length
at least two, left to right. -/
def find_magic_numbers (line : String) : List String :=
  magic_finish (line.data.foldl magic_step ⟨none, false, []⟩)

/-- `CodeReviewAutomator._analyze_python_line` (lines 209-270): line length,
TODO marker, print-in-production, bare except, and magic numbers (each magic
number not in `['0', '1', '100']` yields one finding). -/
def analyze_python_line (line : String) (lineNum : Nat) (filePath : String) :
    List ReviewIssue :=
  (if line.length > 88 then
     [⟨filePath, lineNum, "style", "low",
       "Line too long (" ++ toString line.length ++ " characters)",
       "Break line to fit within 88 characters"⟩]
   else []) ++
  (if containsStr "TODO" (upperStr line) then
     [⟨filePath, lineNum, "maintainability", "low", "TODO comment found",
       "Address TODO or convert to proper issue tracking"⟩]
   else []) ++
  (if containsStr "print(" line && !(strEnds "test.py" filePath) then
     [⟨filePath, lineNum, "style", "medium", "Print statement in production code",
       "Use proper logging instead of print statements"⟩]
   else []) ++
  (if containsStr "except:" line && !(containsStr "Exception" line) then
     [⟨filePath, lineNum, "logic", "medium", "Bare except clause",
       "Specify exception types to catch"⟩]
   else []) ++
  ((find_magic_numbers line).filterMap (fun num =>
     if num == "0" || num == "1" || num == "100" then none
     else some ⟨filePath, lineNum, "maintainability", "low",
       "Magic number '" ++ num ++ "' found", "Replace with named constant"⟩))

/-- A `SyntaxError` raised by `ast.parse`: its `lineno` (possibly `None`)
and `msg`. -/
structure SynErr where
  lineno : Option Nat
  msg : String
  deriving DecidableEq

/-- The finding appended by the `except SyntaxError` branch of
`_review_python_file` (lines 101-109). -/
def syn_error_finding (filePath : String) (e : SynErr) : ReviewIssue :=
  ⟨filePath, e.lineno.getD 0, "logic", "high", "Syntax error: " ++ e.msg,
   "Fix syntax error before proceeding"⟩

/-- The successfully-read content of a Python file under review: its lines
and the `ast.parse` outcome (the parsed module tree, or the syntax error). -/
structure ReviewPyContent where
  lines : List String
  parse : Except SynErr PyNode
  deriving DecidableEq

/-- A Python file handed to the review automator (`.error` when reading
raised, caught by the outer `except` of `_review_python_file`). -/
structure ReviewPyFile where
  path : String
  content : Except String ReviewPyContent
  deriving DecidableEq

/-- The line-by-line loop of `_review_python_file` (lines 112-120): 1-based,
stripped, skipping empty and comment lines. -/
def python_line_findings (filePath : String) (lines : List String) : List ReviewIssue :=
  (enumerateFrom 1 lines).flatMap (fun il =>
    let lc := pyStrip il.2
    if lc.isEmpty || strStarts "#" lc then [] else analyze_python_line lc il.1 filePath)

/-- `CodeReviewAutomator._review_python_file` (lines 86-132): AST issues (or
the one syntax-error finding) followed by the line findings; an unreadable
file yields the single info finding of the outer `except`. -/
def review_python_file (f : ReviewPyFile) : List ReviewIssue :=
  match f.content with
  | .error e =>
      [⟨f.path, 0, "logic", "info", "Could not review file: " ++ e,
        "Check file permissions and encoding"⟩]
  | .ok c =>
      (match c.parse with
       | .ok tree => analyze_ast_node f.path tree
       | .error er => [syn_error_finding f.path er]) ++
      python_line_findings f.path c.lines

/-- The per-language review result dict
`{"files_reviewed": _, "issues": _}`. -/
structure ReviewLangResult where
  files_reviewed : Nat
  issues : List ReviewIssue
  deriving DecidableEq

/-- The issue concatenation of `review_python_files` (each file reviewed in
order, a per-file exception only skipping that file — `_review_python_file`
already catches everything internally). -/
def review_python_files_issues (files : List ReviewPyFile) : List ReviewIssue :=
  files.flatMap review_python_file

/-- `CodeReviewAutomator.review_python_files` (lines 66-84). -/
def review_python_files (files : List ReviewPyFile) : Option ReviewLangResult :=
  if files.isEmpty then none
  else some ⟨files.length, review_python_files_issues files⟩

/-- `re.search(r'\$[A-Za-z_][A-Za-z0-9_]*[^"]', line)` of
`_analyze_shell_line` (line 329). -/
def shell_unquoted_var_match (line : String) : Bool :=
  searchAt (fun s =>
    match s with
    | '$' :: c :: rest =>
        (c.isAlpha || c == '_') &&
          starThen isWordCh (fun r =>
            match r with
            | d :: _ => d != '"'
            | [] => false) rest
    | _ => false) line.data

/-- `CodeReviewAutomator._analyze_shell_line` (lines 324-361): unquoted
variable expansion, missing `set -e` on line 1, hardcoded system paths. -/
def analyze_shell_line (line : String) (lineNum : Nat) (filePath : String) :
    List ReviewIssue :=
  (if shell_unquoted_var_match line then
     [⟨filePath, lineNum, "logic", "medium", "Unquoted variable expansion",
       "Quote variable expansions to prevent word splitting"⟩]
   else []) ++
  (if lineNum == 1 && !(containsStr "set -e" line) then
     [⟨filePath, lineNum, "logic", "medium", "Missing 'set -e' for error handling",
       "Add 'set -e' at script beginning to exit on errors"⟩]
   else []) ++
  (if containsStr "/usr/local" line || containsStr "/opt/" line then
     [⟨filePath, lineNum, "maintainability", "low", "Hardcoded system path",
       "Use variables for configurable paths"⟩]
   else [])

/-- `CodeReviewAutomator._review_shell_file` (lines 292-322). -/
def review_shell_file (f : TextFile) : List ReviewIssue :=
  match f.data with
  | .error e =>
      [⟨f.path, 0, "logic", "info", "Could not review file: " ++ e,
        "Check file permissions and encoding"⟩]
  | .ok lines =>
      (enumerateFrom 1 lines).flatMap (fun il =>
        let lc := pyStrip il.2
        if lc.isEmpty || strStarts "#" lc then [] else analyze_shell_line lc il.1 f.path)

/-- `CodeReviewAutomator.review_shell_scripts` (lines 272-290). -/
def review_shell_scripts (files : List TextFile) : Option ReviewLangResult :=
  if files.isEmpty then none
  else some ⟨files.length, files.flatMap review_shell_file⟩

/-- `CodeReviewAutomator._review_config_file` (lines 388-422): a stripped
line that starts with `#` and contains `=` or `:` is flagged as commented
out configuration (no comment-skip in this loop). -/
def review_config_file (f : TextFile) : List ReviewIssue :=
  match f.data with
  | .error e =>
      [⟨f.path, 0, "logic", "info", "Could not review config file: " ++ e,
        "Check file permissions and format"⟩]
  | .ok lines =>
      (enumerateFrom 1 lines).filterMap (fun il =>
        let lc := pyStrip il.2
        if strStarts "#" lc && (containsStr "=" lc || containsStr ":" lc) then
          some ⟨f.path, il.1, "maintainability", "low", "Commented out configuration",
            "Remove commented configuration or document why it's disabled"⟩
        else none)

/-- `CodeReviewAutomator.review_config_files` (lines 363-386). -/
def review_config_files (files : List TextFile) : Option ReviewLangResult :=
  if files.isEmpty then none
  else some ⟨files.length, files.flatMap review_config_file⟩

mutual
/-- The docstring walk of `review_documentation` (lines 446-457): count the
`FunctionDef`/`ClassDef` nodes of the whole tree without a docstring. -/
def undocumented_in_node : PyNode → Nat
  | .functionDef _ _ _ hasDoc body => (if hasDoc then 0 else 1) + undocumented_in_list body
  | .classDef _ _ hasDoc body => (if hasDoc then 0 else 1) + undocumented_in_list body
  | .ifStmt _ body orelse => undocumented_in_list body + undocumented_in_list orelse
  | .other children => undocumented_in_list children
/-- Walk over a node list. -/
def undocumented_in_list : PyNodeList → Nat
  | .nil => 0
  | .cons n rest => undocumented_in_node n + undocumented_in_list rest
end

/-- The documentation result dict `{"issues": _}` of
`review_documentation`. -/
structure ReviewDocResult where
  issues : List ReviewIssue
  deriving DecidableEq

/-- The project as seen by `CodeReviewAutomator`: the globbed Python, shell
and config files, plus the `**/README*` glob result (paths only). -/
structure ReviewProject where
  pyFiles : List ReviewPyFile
  shFiles : List TextFile
  configFiles : List TextFile
  readmeFiles : List String
  deriving DecidableEq

/-- The `undocumented_functions` count of `review_documentation` (lines
443-457): files that fail to read or parse are silently skipped by the bare
`except`. -/
def undocumented_total (files : List ReviewPyFile) : Nat :=
  files.foldl (fun acc f =>
    match f.content with
    | .error _ => acc
    | .ok c =>
        match c.parse with
        | .error _ => acc
        | .ok tree => acc + undocumented_in_node tree) 0

/-- `CodeReviewAutomator.review_documentation` (lines 424-469). -/
def review_documentation (p : ReviewProject) : Option ReviewDocResult :=
  let issues :=
    (if p.readmeFiles.isEmpty then
       [⟨"project_root", 0, "maintainability", "medium", "Missing README file",
         "Add README.md with project description and setup instructions"⟩]
     else []) ++
    (let u := undocumented_total p.pyFiles
     if u > 0 then
       [⟨"multiple_files", 0, "maintainability", "low",
         toString u ++ " functions/classes missing docstrings",
         "Add docstrings to all public functions and classes"⟩]
     else [])
  if issues.isEmpty then none else some ⟨issues⟩

/-- The reviewer's category buckets `self.issues` (its only instance state
besides the project root). -/
structure IssueBuckets where
  style : List ReviewIssue
  logic : List ReviewIssue
  security : List ReviewIssue
  performance : List ReviewIssue
  maintainability : List ReviewIssue
  deriving DecidableEq

/-- The buckets as initialised by `CodeReviewAutomator.__init__`. -/
def empty_issue_buckets : IssueBuckets := ⟨[], [], [], [], []⟩

/-- The summary dict of `_calculate_summary` (lines 471-487). -/
structure ReviewSummary where
  total_issues : Nat
  style_count : Nat
  logic_count : Nat
  security_count : Nat
  performance_count : Nat
  maintainability_count : Nat
  deriving DecidableEq

/-- `CodeReviewAutomator._calculate_summary`. -/
def review_calculate_summary (b : IssueBuckets) : ReviewSummary :=
  ⟨b.style.length + b.logic.length + b.security.length + b.performance.length +
     b.maintainability.length,
   b.style.length, b.logic.length, b.security.length, b.performance.length,
   b.maintainability.length⟩

/-- `CodeReviewAutomator._calculate_score` (lines 489-509): base 100, per
category subtract `min(count * deduction, 20)` with the deductions dict
style 1, logic 5, security 10, performance 3, maintainability 2, and return
`max(0, score)`. -/
def review_calculate_score (b : IssueBuckets) : Int :=
  let s := review_calculate_summary b
  let score : Int := 100
  let score := score - min ((s.style_count : Int) * 1) 20
  let score := score - min ((s.logic_count : Int) * 5) 20
  let score := score - min ((s.security_count : Int) * 10) 20
  let score := score - min ((s.performance_count : Int) * 3) 20
  let score := score - min ((s.maintainability_count : Int) * 2) 20
  max 0 score

/-- `CodeReviewAutomator._generate_recommendations` (lines 511-542). -/
def review_generate_recommendations (b : IssueBuckets) : List String :=
  let s := review_calculate_summary b
  let score := review_calculate_score b
  (if score ≥ 90 then ["✅ Excellent code quality!"]
   else if score ≥ 75 then ["👍 Good code quality with minor improvements needed"]
   else if score ≥ 60 then ["⚠️ Code quality needs attention"]
   else ["🚨 Code quality requires significant improvements"]) ++
  (if s.logic_count > 0 then
     ["🔧 Fix " ++ toString s.logic_count ++ " logic issues for better reliability"]
   else []) ++
  (if s.security_count > 0 then
     ["🔒 Address " ++ toString s.security_count ++ " security concerns"]
   else []) ++
  (if s.maintainability_count > 0 then
     ["📚 Improve " ++ toString s.maintainability_count ++ " maintainability issues"]
   else []) ++
  ["📖 Add comprehensive docstrings to all public functions",
   "🧪 Ensure all code is covered by unit tests",
   "🔄 Run automated tests before committing changes",
   "👥 Consider code reviews for complex changes"]

/-- The `results["languages"]` dict of `run_full_review`, in insertion
order. -/
structure ReviewLanguages where
  python : Option ReviewLangResult
  shell : Option ReviewLangResult
  config : Option ReviewLangResult
  documentation : Option ReviewDocResult
  deriving DecidableEq

/-- The full result dict of `CodeReviewAutomator.run_full_review`. -/
structure ReviewResults where
  issues : IssueBuckets
  summary : ReviewSummary
  languages : ReviewLanguages
  recommendations : List String
  score : Int
  deriving DecidableEq

/-- `CodeReviewAutomator.run_full_review` (lines 27-64), with the instance
state `self.issues` threaded explicitly: the per-language findings go only
into `results["languages"]`, while `summary`, `score` and `recommendations`
are derived from the buckets; the buckets are returned unchanged (no code
path appends to them). -/
def run_full_review (p : ReviewProject) (state : IssueBuckets) :
    ReviewResults × IssueBuckets :=
  (⟨state,
    review_calculate_summary state,
    ⟨review_python_files p.pyFiles, review_shell_scripts p.shFiles,
     review_config_files p.configFiles, review_documentation p⟩,
    review_generate_recommendations state,
    review_calculate_score state⟩, state)

/-- The findings a `run_full_review` run emits: the concatenation of the
issue lists of its four language sections. -/
def emitted_review_issues (r : ReviewResults) : List ReviewIssue :=
  ((r.languages.python.map (fun l => l.issues)).getD []) ++
  ((r.languages.shell.map (fun l => l.issues)).getD []) ++
  ((r.languages.config.map (fun l => l.issues)).getD []) ++
  ((r.languages.documentation.map (fun l => l.issues)).getD [])

/-- The five review categories (the keys of the `self.issues` dict). -/
inductive IssueCategory where
  | style | logic | security | performance | maintainability
  deriving DecidableEq, Fintype

/-- Append one finding to the bucket of its category (extending the finding
multiset by one element of that category). -/
def add_issue (b : IssueBuckets) (c : IssueCategory) (f : ReviewIssue) : IssueBuckets :=
  match c with
  | .style => ⟨b.style ++ [f], b.logic, b.security, b.performance, b.maintainability⟩
  | .logic => ⟨b.style, b.logic ++ [f], b.security, b.performance, b.maintainability⟩
  | .security => ⟨b.style, b.logic, b.security ++ [f], b.performance, b.maintainability⟩
  | .performance => ⟨b.style, b.logic, b.security, b.performance ++ [f], b.maintainability⟩
  | .maintainability =>
      ⟨b.style, b.logic, b.security, b.performance, b.maintainability ++ [f]⟩

/-! ## Claim-side comparison definitions

Two definitions below follow the words of the specification (not the
source), to be compared against the source-derived functions above. -/

/-- Modelled from the spec (claim C6): a cyclomatic score of 1 (base) plus 1
for each OCCURRENCE of a branching keyword or operator (`if `, `elif `,
`for `, `while `, `case `, `&&`, `||`, ` and `, ` or `) plus 1 for each
exception-handler clause (`except `). -/
def spec_c6_occurrence_score (lines : List String) : Nat :=
  1 + (lines.map (fun line =>
    let l := pyStrip line
    (["if ", "elif ", "for ", "while ", "case ", "&&", "||", " and ", " or "].map
        (fun kw => countStr kw l)).sum + countStr "except " l)).sum

/-- Modelled from the spec (claim C3): the score claimed for
`run_full_review` — 100 minus, for each category of the EMITTED finding
set, `min(count * weight, 20)` with weights style 1, logic 5, security 10,
performance 3, maintainability 2, floored at 0. -/
def spec_score_of_emitted (issues : List ReviewIssue) : Int :=
  let count : String → Int := fun c =>
    ((issues.filter (fun i => i.category == c)).length : Int)
  max 0 (100 - min (count "style" * 1) 20 - min (count "logic" * 5) 20 -
    min (count "security" * 10) 20 - min (count "performance" * 3) 20 -
    min (count "maintainability" * 2) 20)

/-- The per-line contribution of the corrected reading of
`_calculate_cyclomatic_complexity`: 1 if the stripped line contains at least
one branching keyword/operator (however many), plus 1 if it contains
`except `, plus one per occurrence of ` and ` / ` or `. -/
def line_complexity_contribution (line : String) : Nat :=
  let l := pyStrip line
  (if cx_branch_keywords.any (fun kw => containsStr kw l) then 1 else 0) +
  (if containsStr "except " l then 1 else 0) + line_and_or_count l

/-! ## Theorems -/

/-- C1: for every assignment of statuses from the four-element set to the
four gates, `_calculate_overall_status` returns `failed` if any gate is
`failed`, else `warning` if any gate is `warning`, else `passed` if all
gates are `passed`, else `unknown` — in particular `failed` for all 2^4
combinations with at least one failing gate. -/
theorem c1_overall_status_precedence :
    ∀ s1 s2 s3 s4 : Status,
      calculate_overall_status [s1, s2, s3, s4] =
        (if s1 = .failed ∨ s2 = .failed ∨ s3 = .failed ∨ s4 = .failed then .failed
         else if s1 = .warning ∨ s2 = .warning ∨ s3 = .warning ∨ s4 = .warning then
           .warning
         else if s1 = .passed ∧ s2 = .passed ∧ s3 = .passed ∧ s4 = .passed then .passed
         else .unknown) := by
  decide

/-- Helper for C4: `min (n * w) 20` does not decrease when the count `n`
grows by one (weights are non-negative). -/
theorem min_deduction_mono (n : Nat) (w : Int) (hw : 0 ≤ w) :
    min ((n : Int) * w) 20 ≤ min (((n : Int) + 1) * w) 20 :=
  min_le_min (by nlinarith) le_rfl

/-- C4: `_calculate_score` is monotonically non-increasing in each category
count: extending the finding multiset by one finding of any category never
increases the score. -/
theorem c4_score_monotone (b : IssueBuckets) (c : IssueCategory) (f : ReviewIssue) :
    review_calculate_score (add_issue b c f) ≤ review_calculate_score b := by
  have hstep : ∀ x y : Int, x ≤ y → max 0 x ≤ max 0 y := fun x y h =>
    max_le_max le_rfl h
  cases c <;>
    · simp only [review_calculate_score, review_calculate_summary, add_issue,
        List.length_append, List.length_singleton]
      apply hstep
      push_cast
      have h1 := min_deduction_mono b.style.length 1 (by norm_num)
      have h2 := min_deduction_mono b.logic.length 5 (by norm_num)
      have h3 := min_deduction_mono b.security.length 10 (by norm_num)
      have h4 := min_deduction_mono b.performance.length 3 (by norm_num)
      have h5 := min_deduction_mono b.maintainability.length 2 (by norm_num)
      push_cast at h1 h2 h3 h4 h5
      linarith

/-- C6 counterexample: on the single line `if a for b`, which contains two
distinct branching-keyword occurrences (`if ` and `for `),
`_calculate_cyclomatic_complexity` returns 2 (the line contributes 1), while
the claimed occurrence-counting formula gives 3 (the line would contribute
2). -/
theorem c6_counterexample :
    calculate_cyclomatic_complexity ["if a for b"] = 2 ∧
    spec_c6_occurrence_score ["if a for b"] = 3 :=
  ⟨rfl, rfl⟩

/-- C6 (amended): `_calculate_cyclomatic_complexity` returns 1 (base) plus,
per stripped line, 1 if the line contains at least one branching keyword or
operator (`if `, `elif `, `for `, `while `, `case `, `&&`, `||`) —
regardless of how many — plus 1 if it contains `except `, plus one per
occurrence of ` and ` and ` or `. -/
theorem c6_per_line_contribution (lines : List String) :
    calculate_cyclomatic_complexity lines =
      1 + (lines.map line_complexity_contribution).sum := by
  suffices h : ∀ (ls : List String) (acc : Nat),
      ls.foldl (fun complexity line =>
        let l := pyStrip line
        let complexity :=
          if cx_branch_keywords.any (fun kw => containsStr kw l) then complexity + 1
          else complexity
        let complexity := if containsStr "except " l then complexity + 1 else complexity
        if line_and_or_count l > 0 then complexity + line_and_or_count l else complexity)
        acc = acc + (ls.map line_complexity_contribution).sum by
    exact h lines 1
  intro ls
  induction ls with
  | nil => intro acc; simp
  | cons l rest ih =>
      intro acc
      rw [List.foldl_cons, ih, List.map_cons, List.sum_cons]
      have hstep : (let lc := pyStrip l
          let a :=
            if cx_branch_keywords.any (fun kw => containsStr kw lc) then acc + 1 else acc
          let a := if containsStr "except " lc then a + 1 else a
          if line_and_or_count lc > 0 then a + line_and_or_count lc else a) =
          acc + line_complexity_contribution l := by
        simp only [line_complexity_contribution]
        by_cases hb : cx_branch_keywords.any (fun kw => containsStr kw (pyStrip l)) = true <;>
          by_cases he : containsStr "except " (pyStrip l) = true <;>
            rcases Nat.eq_zero_or_pos (line_and_or_count (pyStrip l)) with hc | hc <;>
              simp [hb, he, hc] <;> omega
      rw [hstep]
      omega

/-- C7: `_check_python_vulnerability` returns at most one finding per line,
and the first matching check in the fixed order — dangerous function calls,
then hardcoded-secret regexes, then SQL-injection regexes, then
path-traversal substrings — determines the single finding returned; a check
that matches later in the order produces nothing once an earlier one has
matched. -/
theorem c7_first_match_wins :
    (∀ line n fp, (check_python_vulnerability line n fp).toList.length ≤ 1) ∧
    (∀ line n fp f, check_dangerous_functions line n fp = some f →
      check_python_vulnerability line n fp = some f) ∧
    (∀ line n fp f, check_dangerous_functions line n fp = none →
      check_hardcoded_secret line n fp = some f →
      check_python_vulnerability line n fp = some f) ∧
    (∀ line n fp f, check_dangerous_functions line n fp = none →
      check_hardcoded_secret line n fp = none →
      check_sql_injection line n fp = some f →
      check_python_vulnerability line n fp = some f) ∧
    (∀ line n fp, check_dangerous_functions line n fp = none →
      check_hardcoded_secret line n fp = none →
      check_sql_injection line n fp = none →
      check_python_vulnerability line n fp = check_path_traversal line n fp) := by
  refine ⟨fun line n fp => ?_, fun line n fp f h => ?_, fun line n fp f h1 h2 => ?_,
    fun line n fp f h1 h2 h3 => ?_, fun line n fp h1 h2 h3 => ?_⟩
  · cases h : check_python_vulnerability line n fp <;> simp [h]
  · simp [check_python_vulnerability, h]
  · simp [check_python_vulnerability, h1, h2]
  · simp [check_python_vulnerability, h1, h2, h3]
  · simp [check_python_vulnerability, h1, h2, h3]

/-- C7 witness: the line `eval(password = "x")` matches both the dangerous
`eval(` pattern and the hardcoded-secret regex, yet only the first
(dangerous-call) finding is returned. -/
theorem c7_witness :
    check_hardcoded_secret "eval(password = \"x\")" 1 "a.py" =
      some ⟨"a.py", 1, "high", "Potential hardcoded secret",
        some "eval(password = \"x\")",
        "Move secrets to environment variables or secure config files"⟩ ∧
    check_python_vulnerability "eval(password = \"x\")" 1 "a.py" =
      some ⟨"a.py", 1, "critical", "Use of eval() function",
        some "eval(password = \"x\")",
        "Avoid eval() - use ast.literal_eval() for safe evaluation"⟩ :=
  ⟨rfl, c7_first_match_wins.2.1 "eval(password = \"x\")" 1 "a.py" _ rfl⟩

/-- C2 input: a project whose only source file is the shell script
`deploy.sh` with the single line `rm -rf /` (regular permissions
`0o100644`, 9 bytes). -/
def c2_project : SecProject :=
  ⟨[], [⟨"deploy.sh", .ok ["rm -rf /"]⟩], [], [⟨"deploy.sh", some ⟨33188, 9⟩⟩]⟩

/-- C2 (code bug): `scan_all_files` does emit exactly one critical finding
for the `rm -rf /` line — but only into the per-language section; the
severity buckets that the report's `vulnerabilities`/`summary` keys are
built from are never appended to, so the report carries a critical count of
0 and `run_security_scanning`, consuming that report, returns status
`passed` instead of the claimed `failed`. -/
theorem c2_critical_finding_gate_passes :
    (scan_all_files c2_project sec_empty_buckets).1.languages.shell =
      some ⟨1, [⟨"deploy.sh", 1, "critical", "Dangerous rm command", some "rm -rf /",
        "Never use rm -rf / - specify exact paths"⟩]⟩ ∧
    (scan_all_files c2_project sec_empty_buckets).1.summary.critical_count = 0 ∧
    (run_security_scanning_from_report
        (scan_all_files c2_project sec_empty_buckets).1).status = Status.passed :=
  ⟨rfl, rfl, rfl⟩

/-- C3 input: a project whose only source file is `app.py` containing the
single line `print('hello')` (parsing to a module with no definitions), and
no README. -/
def c3_project : ReviewProject :=
  ⟨[⟨"app.py", .ok ⟨["print('hello')"], .ok (.other .nil)⟩⟩], [], [], []⟩

/-- C3 (code bug): `run_full_review` emits two findings (a style finding for
the print statement and a maintainability finding for the missing README),
yet returns score 100: the score is computed from the `self.issues` buckets,
which no code path ever appends to.  The score claimed for this emitted
finding set is 97. -/
theorem c3_emitted_findings_score_disconnect :
    emitted_review_issues (run_full_review c3_project empty_issue_buckets).1 =
      [⟨"app.py", 1, "style", "medium", "Print statement in production code",
        "Use proper logging instead of print statements"⟩,
       ⟨"project_root", 0, "maintainability", "medium", "Missing README file",
        "Add README.md with project description and setup instructions"⟩] ∧
    (run_full_review c3_project empty_issue_buckets).1.score = 100 ∧
    spec_score_of_emitted
      [⟨"app.py", 1, "style", "medium", "Print statement in production code",
        "Use proper logging instead of print statements"⟩,
       ⟨"project_root", 0, "maintainability", "medium", "Missing README file",
        "Add README.md with project description and setup instructions"⟩] = 97 :=
  ⟨rfl, rfl, rfl⟩

/-- Helper for C5: every `complex_functions` entry records a complexity
strictly above the cyclomatic threshold. -/
theorem mem_cx_complex_functions (files : List CxPyFile) (e : CxComplexEntry)
    (he : e ∈ cx_complex_functions files) : cx_thresholds.cyclomatic < e.complexity := by
  unfold cx_complex_functions at he
  rw [List.mem_flatMap] at he
  obtain ⟨f, -, hf⟩ := he
  rcases hd : f.data with - | d
  · simp [hd] at hf
  · rw [hd] at hf
    rw [List.mem_filterMap] at hf
    obtain ⟨fr, -, hfr⟩ := hf
    by_cases hc : fr.complexity > cx_thresholds.cyclomatic
    · rw [if_pos hc] at hfr
      cases hfr
      exact hc
    · rw [if_neg hc] at hfr
      cases hfr

/-- Helper for C5: every `long_functions` entry records a span strictly
above the function-length threshold. -/
theorem mem_cx_long_functions (files : List CxPyFile) (e : CxLongFuncEntry)
    (he : e ∈ cx_long_functions files) : cx_thresholds.lines_per_function < e.lines := by
  unfold cx_long_functions at he
  rw [List.mem_flatMap] at he
  obtain ⟨f, -, hf⟩ := he
  rcases hd : f.data with - | d
  · simp [hd] at hf
  · rw [hd] at hf
    rw [List.mem_filterMap] at hf
    obtain ⟨fr, -, hfr⟩ := hf
    by_cases hc : fr.lines > cx_thresholds.lines_per_function
    · rw [if_pos hc] at hfr
      cases hfr
      exact hc
    · rw [if_neg hc] at hfr
      cases hfr

/-- Helper for C5: every `long_files` entry records a line count strictly
above the file-length threshold. -/
theorem mem_cx_long_files (files : List CxPyFile) (e : CxLongFileEntry)
    (he : e ∈ cx_long_files files) : cx_thresholds.lines_per_file < e.lines := by
  unfold cx_long_files at he
  rw [List.mem_filterMap] at he
  obtain ⟨f, -, hf⟩ := he
  rcases hd : f.data with - | d
  · simp [hd] at hf
  · rw [hd] at hf
    simp only [Option.some_bind] at hf
    by_cases hc :
        (analyze_python_file f.path d.1 d.2).total_lines > cx_thresholds.lines_per_file
    · rw [if_pos hc] at hf
      cases hf
      exact hc
    · rw [if_neg hc] at hf
      cases hf

/-- C5: the three sizing checks of `analyze_python_files` flag only on
strictly-greater-than comparisons — a function whose cyclomatic score is
exactly the threshold 10 or below gets no `complex_functions` entry, one
whose span is exactly 50 or below gets no `long_functions` entry, and a file
of exactly 300 lines or fewer gets no `long_files` entry. -/
theorem c5_threshold_strictness (files : List CxPyFile) (res : CxPyResults)
    (h : analyze_python_files files = some res) :
    (∀ e ∈ res.complex_functions, cx_thresholds.cyclomatic < e.complexity) ∧
    (∀ e ∈ res.long_functions, cx_thresholds.lines_per_function < e.lines) ∧
    (∀ e ∈ res.long_files, cx_thresholds.lines_per_file < e.lines) := by
  unfold analyze_python_files at h
  split at h
  · cases h
  · cases h
    exact ⟨fun e he => mem_cx_complex_functions files e he,
      fun e he => mem_cx_long_functions files e he,
      fun e he => mem_cx_long_files files e he⟩

/-- C5 witness input: one parsed file whose single one-line function has
cyclomatic score 12. -/
def c5_files : List CxPyFile :=
  [⟨"w.py", some ⟨["if a and b and c and d and e and f and g and h and i and j and k"],
    ⟨[⟨"f", 1, 1, 0⟩], []⟩⟩⟩]

/-- C5 witness: instantiating the theorem at a concrete project whose one
function scores 12 and is flagged. -/
theorem c5_witness :
    cx_thresholds.cyclomatic < (⟨"w.py", "f", 12, 1⟩ : CxComplexEntry).complexity :=
  (c5_threshold_strictness c5_files
      ⟨1, [⟨"w.py", 1, [⟨"f", 1, 1, 12, 0⟩], []⟩], [⟨"w.py", "f", 12, 1⟩], [], []⟩
      rfl).1 ⟨"w.py", "f", 12, 1⟩ (by simp)

/-- C8 counterexample: on a project whose only Python file fails to parse,
`ComplexityAnalyzer.analyze_python_files` records NO finding of any kind for
that file — the per-file `except` only prints a warning and skips the file
(the result holds no entry for it at all), contrary to the claim that every
parsing analyzer pass records a high-severity logic finding. -/
theorem c8_counterexample :
    analyze_python_files [⟨"bad.py", none⟩] = some ⟨1, [], [], [], []⟩ :=
  rfl

/-- C8 (amended): parse errors are caught per file and the scan continues in
both analyzers, but only `CodeReviewAutomator._review_python_file` records a
finding — with category `logic` and severity `high` — and then still runs
the line checks; `ComplexityAnalyzer.analyze_python_files` skips the
unparsable file without recording anything and continues with the remaining
files. -/
theorem c8_amended_parse_error_handling :
    (∀ (path : String) (lines : List String) (e : SynErr),
      review_python_file ⟨path, .ok ⟨lines, .error e⟩⟩ =
        syn_error_finding path e :: python_line_findings path lines) ∧
    (∀ (path : String) (e : SynErr),
      (syn_error_finding path e).category = "logic" ∧
      (syn_error_finding path e).severity = "high") ∧
    (∀ (f : ReviewPyFile) (rest : List ReviewPyFile),
      review_python_files_issues (f :: rest) =
        review_python_file f ++ review_python_files_issues rest) ∧
    (∀ (path : String) (rest : List CxPyFile),
      cx_file_results (⟨path, none⟩ :: rest) = cx_file_results rest ∧
      cx_complex_functions (⟨path, none⟩ :: rest) = cx_complex_functions rest ∧
      cx_long_functions (⟨path, none⟩ :: rest) = cx_long_functions rest ∧
      cx_long_files (⟨path, none⟩ :: rest) = cx_long_files rest) :=
  ⟨fun _ _ _ => rfl, fun _ _ => ⟨rfl, rfl⟩, fun _ _ => rfl,
   fun _ _ => ⟨rfl, rfl, rfl, rfl⟩⟩

/-- C9 counterexample input: the same single (never-read) file with regular
permissions `0o100644`. -/
def c9_proj1 : SecProject := ⟨[], [], [], [⟨"data.bin", some ⟨33188, 10⟩⟩]⟩

/-- C9 counterexample input: identical contents, but the file is
world-writable (`0o100666`). -/
def c9_proj2 : SecProject := ⟨[], [], [], [⟨"data.bin", some ⟨33206, 10⟩⟩]⟩

/-- C9 counterexample: two projects with an identical path-to-content
mapping but different file permission bits give different
`scan_all_files` finding lists — the general-security pass reads `st_mode`,
so the scan does depend on something other than the file contents. -/
theorem c9_counterexample :
    sec_project_contents c9_proj1 = sec_project_contents c9_proj2 ∧
    (scan_all_files c9_proj1 sec_empty_buckets).1.languages.general = none ∧
    (scan_all_files c9_proj2 sec_empty_buckets).1.languages.general =
      some ⟨[⟨"data.bin", 0, "medium", "World-writable file",
        some "Permissions: 0o100666", "Remove world-write permissions: chmod o-w"⟩]⟩ ∧
    (scan_all_files c9_proj1 sec_empty_buckets).1 ≠
      (scan_all_files c9_proj2 sec_empty_buckets).1 := by
  refine ⟨rfl, rfl, rfl, fun h => ?_⟩
  have h2 : (scan_all_files c9_proj1 sec_empty_buckets).1.languages.general =
      (scan_all_files c9_proj2 sec_empty_buckets).1.languages.general := by rw [h]
  exact Option.noConfusion h2

/-- C9 (amended): over an unchanged filesystem snapshot (contents AND stat
metadata), two consecutive invocations of each analyzer produce identical
results, and no invocation mutates the analyzer's instance state (the
severity / category buckets are returned unchanged); the complexity analyzer
keeps no instance state at all, so its result is a function of the file data
alone. -/
theorem c9_amended_determinism :
    (∀ (p : SecProject) (s : SevBuckets),
      (scan_all_files p s).2 = s ∧
      (scan_all_files p (scan_all_files p s).2).1 = (scan_all_files p s).1) ∧
    (∀ (p : ReviewProject) (s : IssueBuckets),
      (run_full_review p s).2 = s ∧
      (run_full_review p (run_full_review p s).2).1 = (run_full_review p s).1) ∧
    (∀ p : CxProject, analyze_all_files p = analyze_all_files p) :=
  ⟨fun _ _ => ⟨rfl, rfl⟩, fun _ _ => ⟨rfl, rfl⟩, fun _ => rfl⟩

/-- Helper for C10: the linting status decision never yields `unknown`. -/
theorem linting_status_cases (e w : Nat) :
    linting_status e w = .passed ∨ linting_status e w = .warning ∨
      linting_status e w = .failed := by
  unfold linting_status
  split
  · exact Or.inr (Or.inr rfl)
  split
  · exact Or.inr (Or.inl rfl)
  · exact Or.inl rfl

/-- Helper for C10: the complexity status decision never yields `unknown`. -/
theorem complexity_gate_status_cases (c l : Nat) :
    complexity_gate_status c l = .passed ∨ complexity_gate_status c l = .warning ∨
      complexity_gate_status c l = .failed := by
  unfold complexity_gate_status
  split
  · exact Or.inr (Or.inr rfl)
  split
  · exact Or.inr (Or.inl rfl)
  · exact Or.inl rfl

/-- Helper for C10: the security status decision never yields `unknown`. -/
theorem security_gate_status_cases (c h m : Nat) :
    security_gate_status c h m = .passed ∨ security_gate_status c h m = .warning ∨
      security_gate_status c h m = .failed := by
  unfold security_gate_status
  split
  · exact Or.inr (Or.inr rfl)
  split
  · exact Or.inr (Or.inr rfl)
  split
  · exact Or.inr (Or.inl rfl)
  · exact Or.inl rfl

/-- Helper for C10: the review status decision never yields `unknown`. -/
theorem review_gate_status_cases (s : ℚ) :
    review_gate_status s = .passed ∨ review_gate_status s = .warning ∨
      review_gate_status s = .failed := by
  unfold review_gate_status
  split
  · exact Or.inl rfl
  split
  · exact Or.inr (Or.inl rfl)
  · exact Or.inr (Or.inr rfl)

/-- Helper for C10: `_calculate_overall_status` of four known (non-unknown)
statuses is itself never `unknown`. -/
theorem overall_status_of_known :
    ∀ s1 s2 s3 s4 : Status,
      (s1 = .passed ∨ s1 = .warning ∨ s1 = .failed) →
      (s2 = .passed ∨ s2 = .warning ∨ s2 = .failed) →
      (s3 = .passed ∨ s3 = .warning ∨ s3 = .failed) →
      (s4 = .passed ∨ s4 = .warning ∨ s4 = .failed) →
      (calculate_overall_status [s1, s2, s3, s4] = .passed ∨
        calculate_overall_status [s1, s2, s3, s4] = .warning ∨
        calculate_overall_status [s1, s2, s3, s4] = .failed) := by
  decide

/-- C10: after `run_all_quality_gates`, each of the four gate statuses is in
`passed/warning/failed` — every gate's final `if/elif/else` unconditionally
overwrites the initial `unknown` — and consequently the overall status
written to the report is never `unknown`. -/
theorem c10_gate_statuses_never_unknown :
    ∀ g : GateInputs,
      (∀ s ∈ run_all_gate_statuses g,
        s = .passed ∨ s = .warning ∨ s = .failed) ∧
      (run_all_overall_status g = .passed ∨ run_all_overall_status g = .warning ∨
        run_all_overall_status g = .failed) := by
  intro g
  have h1 := linting_status_cases g.lint_errors g.lint_warnings
  have h2 := complexity_gate_status_cases g.max_complexity g.max_lines
  have h3 := security_gate_status_cases g.sec_critical g.sec_high g.sec_medium
  have h4 := review_gate_status_cases g.review_score
  constructor
  · intro s hs
    simp only [run_all_gate_statuses, List.mem_cons, List.not_mem_nil, or_false] at hs
    rcases hs with h | h | h | h <;> subst h <;> assumption
  · exact overall_status_of_known _ _ _ _ h1 h2 h3 h4

/-- C10 witness: at all-clean inputs (score 95) the overall status is one of
the three known values. -/
theorem c10_witness :
    run_all_overall_status ⟨0, 0, 0, 0, 0, 0, 0, 95⟩ = .passed ∨
    run_all_overall_status ⟨0, 0, 0, 0, 0, 0, 0, 95⟩ = .warning ∨
    run_all_overall_status ⟨0, 0, 0, 0, 0, 0, 0, 95⟩ = .failed :=
  (c10_gate_statuses_never_unknown ⟨0, 0, 0, 0, 0, 0, 0, 95⟩).2
